import Mathlib

/-!
# Verification of the quiz-website resource pipeline

Shallow embedding of the Express/Mongoose quiz application:
- `src/controllers/resourceController.js` (create/list/get/update/delete/play
  over the Quiz collection),
- `src/controllers/authController.js` (register/login),
- `src/controllers/userController.js` (profile get/update),
- `src/validation/schemas.js` + `src/middleware/validate.js` (Joi validation;
  all fields are declared `.strict()`, so `.trim()`/`.lowercase()` act as
  validators on the already-normalised value rather than converters),
- the email service (`initEmailService` / `sendEmail`).

Identifiers (Mongo ObjectIds) are modelled as `Nat`; timestamps as `Nat`;
the document store as a `List` of records, `findById` as `List.find?`.
JWT signing/verification and bcrypt are external libraries, passed in as
opaque values/oracles.
-/

/-- Embedded question subdocument (`src/models/Quiz.js`, `questionSchema`).
Subdocument `_id`s are generated by the store and irrelevant here. -/
structure Question where
  text : String
  options : List String
  correctIndex : Nat
deriving DecidableEq

/-- Quiz document (`src/models/Quiz.js`, `quizSchema`). -/
structure Quiz where
  qid : Nat
  title : String
  description : String
  owner : Nat
  isPublic : Bool
  questions : List Question
  createdAt : Nat
  updatedAt : Nat
deriving DecidableEq

/-- User document as stored (username, email, passwordHash, role; the
User model file itself is not among the sources, but every field here is
read or written by the controllers under `src/controllers`). -/
structure UserRec where
  uid : Nat
  username : String
  email : String
  passwordHash : String
  role : String
deriving DecidableEq

/-- Outcome of one HTTP handler: a success status with a typed body, or an
`AppError`-style failure with its status code and message
(`src/middleware/errorHandler.js`). -/
inductive HandlerResult (α : Type) where
  | ok (status : Nat) (body : α)
  | err (status : Nat) (error : String)
deriving DecidableEq

/-- `Quiz.findById` on the quiz collection. -/
def findQuiz (store : List Quiz) (id : Nat) : Option Quiz :=
  store.find? (fun q => q.qid == id)

/-- `User.findById` on the user collection. -/
def findUser (users : List UserRec) (id : Nat) : Option UserRec :=
  users.find? (fun u => u.uid == id)

/-! ## Validation (`src/validation/schemas.js`, run by `validateBody` in
`src/middleware/validate.js` with `stripUnknown: true`) -/

/-- Joi `questionSchema`: text trimmed (strict ⇒ checked), 1–500 chars;
2–6 options, each trimmed, 1–200 chars; `correctIndex` an integer in 0–5
(`Nat` carries the `min(0)` bound); plus the custom cross-field check
`correctIndex < options.length`. -/
def questionCheck (q : Question) : Bool :=
  (q.text.trim == q.text) && decide (1 ≤ q.text.length) && decide (q.text.length ≤ 500)
    && decide (2 ≤ q.options.length) && decide (q.options.length ≤ 6)
    && q.options.all (fun o => (o.trim == o) && decide (1 ≤ o.length) && decide (o.length ≤ 200))
    && decide (q.correctIndex ≤ 5)
    && decide (q.correctIndex < q.options.length)

/-- Body of `POST /resource` after `stripUnknown` (only the keys of
`createResourceSchema` survive). `description` and `isPublic` carry Joi
defaults, modelled as `Option` resolved at use sites. -/
structure CreateBody where
  title : String
  description : Option String
  isPublic : Option Bool
  questions : List Question
deriving DecidableEq

/-- Joi `createResourceSchema`: title trimmed 3–100; description trimmed
≤ 500 (empty allowed); 1–100 questions each passing `questionCheck`. -/
def createCheck (b : CreateBody) : Bool :=
  (b.title.trim == b.title) && decide (3 ≤ b.title.length) && decide (b.title.length ≤ 100)
    && (match b.description with
        | some d => (d.trim == d) && decide (d.length ≤ 500)
        | none => true)
    && b.questions.all questionCheck
    && decide (1 ≤ b.questions.length) && decide (b.questions.length ≤ 100)

/-- Body of `PUT /resource/:id` as a caller may send it. The `owner` field
is not a key of `updateResourceSchema`, so `stripUnknown: true` removes it
before the controller runs, and `updateResource` destructures only the four
known fields — the model keeps the field to state that it is never read. -/
structure UpdateBody where
  title : Option String
  description : Option String
  isPublic : Option Bool
  questions : Option (List Question)
  owner : Option Nat
deriving DecidableEq

/-- Joi `updateResourceSchema`: every supplied field obeys the create-time
rule, and `.min(1)` demands at least one known key after stripping (the
stripped `owner` key does not count). -/
def updateCheck (b : UpdateBody) : Bool :=
  (b.title.isSome || b.description.isSome || b.isPublic.isSome || b.questions.isSome)
    && (match b.title with
        | some t => (t.trim == t) && decide (3 ≤ t.length) && decide (t.length ≤ 100)
        | none => true)
    && (match b.description with
        | some d => (d.trim == d) && decide (d.length ≤ 500)
        | none => true)
    && (match b.questions with
        | some qs => qs.all questionCheck && decide (1 ≤ qs.length) && decide (qs.length ≤ 100)
        | none => true)

/-! ## Resource controller (`src/controllers/resourceController.js`) -/

/-- The document `createResource` hands to `Quiz.create`: `description ||
''`, `isPublic || false`, `owner = req.user._id`; both timestamps are set
to the insertion instant (schema defaults plus the `pre('save')` hook). -/
def createdQuiz (user : UserRec) (body : CreateBody) (newId now : Nat) : Quiz :=
  { qid := newId
    title := body.title
    description := body.description.getD ""
    isPublic := body.isPublic.getD false
    questions := body.questions
    owner := user.uid
    createdAt := now
    updatedAt := now }

/-- `createResource` (`POST /resource`): inserts the document and answers
201 with it. -/
def createResource (store : List Quiz) (user : UserRec) (body : CreateBody)
    (newId now : Nat) : HandlerResult Quiz × List Quiz :=
  let quiz := createdQuiz user body newId now
  (.ok 201 quiz, store ++ [quiz])

/-- Newest-first ordering used by `.sort(\x7b createdAt: -1 \x7d)`. -/
def newerEq (a b : Quiz) : Prop := b.createdAt ≤ a.createdAt

instance : DecidableRel newerEq :=
  fun a b => inferInstanceAs (Decidable (b.createdAt ≤ a.createdAt))

instance : IsTotal Quiz newerEq :=
  ⟨fun a b => Nat.le_total b.createdAt a.createdAt⟩

instance : IsTrans Quiz newerEq :=
  ⟨fun _ _ _ h1 h2 => Nat.le_trans h2 h1⟩

/-- The filter of `getAllResources`: admins query everything, regular users
only documents with `owner = req.user._id`. -/
def ownScope (store : List Quiz) (user : UserRec) : List Quiz :=
  if user.role == "admin" then store else store.filter (fun q => q.owner == user.uid)

/-- `getAllResources` (`GET /resource`, authenticated): scoped query,
sorted newest first, always 200. -/
def getAllResources (store : List Quiz) (user : UserRec) : HandlerResult (List Quiz) :=
  .ok 200 (List.insertionSort newerEq (ownScope store user))

/-- `getResourceById` (`GET /resource/:id`): 404 before any ownership
check; then owner/admin/public gate; then 200 with the quiz. -/
def getResourceById (store : List Quiz) (user : UserRec) (id : Nat) : HandlerResult Quiz :=
  match findQuiz store id with
  | none => .err 404 "Quiz not found"
  | some quiz =>
    let isOwner := quiz.owner == user.uid
    let isAdmin := user.role == "admin"
    if !isOwner && !isAdmin && !quiz.isPublic then
      .err 403 "Access denied. You do not own this resource."
    else
      .ok 200 quiz

/-- The partial merge of `updateResource` combined with the
`pre('findOneAndUpdate')` hook that refreshes `updatedAt`: exactly the
supplied fields are written; `owner`, `createdAt` and the id are not part
of `updateData`. The stripped `owner` key of the body is never read. -/
def applyUpdate (quiz : Quiz) (body : UpdateBody) (now : Nat) : Quiz :=
  { quiz with
    title := body.title.getD quiz.title
    description := body.description.getD quiz.description
    isPublic := body.isPublic.getD quiz.isPublic
    questions := body.questions.getD quiz.questions
    updatedAt := now }

/-- `updateResource` (`PUT /resource/:id`): 404 if absent, 403 unless
owner or admin, else `findByIdAndUpdate` with the partial merge and
`new: true`. -/
def updateResource (store : List Quiz) (user : UserRec) (id : Nat)
    (body : UpdateBody) (now : Nat) : HandlerResult Quiz × List Quiz :=
  match findQuiz store id with
  | none => (.err 404 "Quiz not found", store)
  | some quiz =>
    let isOwner := quiz.owner == user.uid
    let isAdmin := user.role == "admin"
    if !isOwner && !isAdmin then
      (.err 403 "Access denied. You do not own this resource.", store)
    else
      let updated := applyUpdate quiz body now
      (.ok 200 updated, store.map (fun q => if q.qid == id then updated else q))

/-- `deleteResource` (`DELETE /resource/:id`): 404 if absent, 403 unless
owner or admin, else `findByIdAndDelete` and 200 with `data: null`. -/
def deleteResource (store : List Quiz) (user : UserRec) (id : Nat) :
    HandlerResult Unit × List Quiz :=
  match findQuiz store id with
  | none => (.err 404 "Quiz not found", store)
  | some quiz =>
    let isOwner := quiz.owner == user.uid
    let isAdmin := user.role == "admin"
    if !isOwner && !isAdmin then
      (.err 403 "Access denied. You do not own this resource.", store)
    else
      (.ok 200 (), store.filter (fun q => !(q.qid == id)))

/-- Public-list item of `getPublicResources`: the Mongoose projection
`select('title description questions.length owner createdAt')` keeps no
question content (no text, options or correct index reaches the output —
the projected `questions.length` path matches no subdocument field), and
the handler adds `questionCount = quiz.questions.length`. -/
structure PublicResource where
  title : String
  description : String
  owner : Nat
  createdAt : Nat
  questionCount : Nat
deriving DecidableEq

/-- Projection of one quiz to its public-list item. -/
def publicSummary (quiz : Quiz) : PublicResource :=
  { title := quiz.title
    description := quiz.description
    owner := quiz.owner
    createdAt := quiz.createdAt
    questionCount := quiz.questions.length }

/-- `getPublicResources` (`GET /resource/public`, no auth): all documents
with `isPublic: true`, newest first, projected to summaries. Always 200. -/
def getPublicResources (store : List Quiz) : HandlerResult (List PublicResource) :=
  .ok 200 ((List.insertionSort newerEq (store.filter (fun q => q.isPublic))).map publicSummary)

/-- Play projection of one question (`_id` aside: text, options,
correctIndex are all included "for client-side scoring"). -/
structure PlayQuestion where
  text : String
  options : List String
  correctIndex : Nat
deriving DecidableEq

/-- Play projection of the quiz returned by `getResourceForPlay`. -/
structure PlayResource where
  title : String
  description : String
  owner : Nat
  questions : List PlayQuestion
  questionCount : Nat
deriving DecidableEq

/-- The body built by `getResourceForPlay` on success. -/
def playProjection (quiz : Quiz) : PlayResource :=
  { title := quiz.title
    description := quiz.description
    owner := quiz.owner
    questions := quiz.questions.map (fun q => ⟨q.text, q.options, q.correctIndex⟩)
    questionCount := quiz.questions.length }

/-- `req.user && quiz.owner._id.toString() === req.user._id.toString()`
with the optional-auth identity (`optionalAuth` leaves `req.user` unset for
anonymous callers or any token failure). -/
def optIsOwner (optUser : Option UserRec) (quiz : Quiz) : Bool :=
  match optUser with
  | some u => quiz.owner == u.uid
  | none => false

/-- `req.user && req.user.role === 'admin'` under optional auth. -/
def optIsAdmin (optUser : Option UserRec) : Bool :=
  match optUser with
  | some u => u.role == "admin"
  | none => false

/-- `getResourceForPlay` (`GET /resource/:id/play`, optional auth): 404 if
absent; 403 when private and the caller is neither owner nor admin
(anonymous callers fail both tests); else 200 with the play projection. -/
def getResourceForPlay (store : List Quiz) (optUser : Option UserRec) (id : Nat) :
    HandlerResult PlayResource :=
  match findQuiz store id with
  | none => .err 404 "Quiz not found"
  | some quiz =>
    if !quiz.isPublic && !(optIsOwner optUser quiz) && !(optIsAdmin optUser) then
      .err 403 "This quiz is not available for playing"
    else
      .ok 200 (playProjection quiz)

/-! ## Route pipelines (`src/routes/resourceRoutes.js`): `validateBody`
rejects with 400 "Validation failed" before the controller runs, so an
invalid payload never reaches the store. -/

/-- `POST /resource` = `validateBody(createResourceSchema)` then
`createResource`. -/
def postResourceRoute (store : List Quiz) (user : UserRec) (body : CreateBody)
    (newId now : Nat) : HandlerResult Quiz × List Quiz :=
  if createCheck body then createResource store user body newId now
  else (.err 400 "Validation failed", store)

/-- `PUT /resource/:id` = `validateBody(updateResourceSchema)` then
`updateResource`. -/
def putResourceRoute (store : List Quiz) (user : UserRec) (id : Nat)
    (body : UpdateBody) (now : Nat) : HandlerResult Quiz × List Quiz :=
  if updateCheck body then updateResource store user id body now
  else (.err 400 "Validation failed", store)

/-! ## Auth and user controllers (`src/controllers/authController.js`,
`src/controllers/userController.js`) -/

/-- Body of `POST /register` as a caller may send it. `registerSchema`
knows only username/email/password, so a `role` key is removed by
`stripUnknown` before the controller runs; the model keeps the field to
state that it is never read. -/
structure RegisterBody where
  username : String
  email : String
  password : String
  role : Option String
deriving DecidableEq

/-- Identity as serialised into responses: `user.toJSON()`. -/
structure PublicUser where
  uid : Nat
  username : String
  email : String
  role : String
deriving DecidableEq

/-- Modelled from the spec: the User model file (`src/models/User.js`) is
not among the sources here; per the spec, "for all valid registration
payloads, the returned identity never contains the password hash field",
so its `toJSON` transform projects an identity to its public fields and
omits `passwordHash`. -/
def toJSONUser (u : UserRec) : PublicUser :=
  { uid := u.uid, username := u.username, email := u.email, role := u.role }

/-- Success body of register/login: serialised user plus a signed JWT
(the token is an opaque external value here). -/
structure AuthData where
  user : PublicUser
  token : String
deriving DecidableEq

/-- The record `User.create` receives from `register`: the caller's
username/email, the bcrypt hash, and the hard-coded default role. -/
def newUserRec (body : RegisterBody) (hash : String) (newId : Nat) : UserRec :=
  { uid := newId
    username := body.username
    email := body.email
    passwordHash := hash
    role := "user" }

/-- `register`: advisory duplicate pre-check on email or username
(`findOne \x7b $or: [...] \x7d`), then `User.create` with the bcrypt hash and
the hard-coded `role: 'user'` — the payload's (stripped) role is never
consulted — then 201 with `user.toJSON()` and the token. -/
def register (users : List UserRec) (body : RegisterBody) (hash : String)
    (newId : Nat) (token : String) : HandlerResult AuthData × List UserRec :=
  match users.find? (fun u => u.email == body.email || u.username == body.username) with
  | some existing =>
    if existing.email == body.email then (.err 400 "Email already registered", users)
    else (.err 400 "Username already taken", users)
  | none =>
    let user := newUserRec body hash newId
    (.ok 201 ⟨toJSONUser user, token⟩, users ++ [user])

/-- `login`: find by email, compare the password against the stored hash
through bcrypt (an opaque oracle here), 401 on either failure, else 200
with `user.toJSON()` and a fresh token. -/
def login (users : List UserRec) (email password : String)
    (bcryptCompare : String → String → Bool) (token : String) : HandlerResult AuthData :=
  match users.find? (fun u => u.email == email) with
  | none => .err 401 "Invalid email or password"
  | some user =>
    if bcryptCompare password user.passwordHash then .ok 200 ⟨toJSONUser user, token⟩
    else .err 401 "Invalid email or password"

/-- `getProfile` (`GET /users/profile`): look the caller up by id, 404 if
gone, else 200 with `user.toJSON()`. -/
def getProfile (users : List UserRec) (callerId : Nat) : HandlerResult PublicUser :=
  match findUser users callerId with
  | none => .err 404 "User not found"
  | some user => .ok 200 (toJSONUser user)

/-- Body of `PUT /users/profile` after validation: optional username and
email only (`updateProfileSchema` has no other keys). -/
structure ProfileBody where
  username : Option String
  email : Option String
deriving DecidableEq

/-- The duplicate pre-check of `updateProfile`: a `$or` query over the
supplied values that differ from the caller's current ones, excluding the
caller's own id. `none` when no clause is built or nothing matches. -/
def profileConflict (users : List UserRec) (caller : UserRec) (body : ProfileBody) :
    Option UserRec :=
  let unQ : Option String :=
    match body.username with
    | some un => if un == caller.username then none else some un
    | none => none
  let emQ : Option String :=
    match body.email with
    | some em => if em == caller.email then none else some em
    | none => none
  if unQ.isNone && emQ.isNone then none
  else
    users.find? (fun u =>
      !(u.uid == caller.uid)
        && ((match unQ with | some un => u.username == un | none => false)
            || (match emQ with | some em => u.email == em | none => false)))

/-- The `updateData` written by `updateProfile`: only username and email,
each only when supplied (truthy). Role and password hash are not part of
the update document. -/
def applyProfileUpdate (body : ProfileBody) (u : UserRec) : UserRec :=
  { u with
    username := body.username.getD u.username
    email := body.email.getD u.email }

/-- `updateProfile` (`PUT /users/profile`): duplicate pre-check with its
two 400 messages, then `findByIdAndUpdate(req.user._id, updateData,
\x7b new: true \x7d)`; if the caller's record has vanished the handler
dereferences `null` and the error handler answers 500. -/
def updateProfile (users : List UserRec) (caller : UserRec) (body : ProfileBody) :
    HandlerResult PublicUser × List UserRec :=
  match profileConflict users caller body with
  | some existing =>
    if body.username.any (fun un => existing.username == un) then
      (.err 400 "Username already taken", users)
    else if body.email.any (fun em => existing.email == em) then
      (.err 400 "Email already in use", users)
    else
      (.err 500 "Internal Server Error", users)
  | none =>
    match findUser users caller.uid with
    | none => (.err 500 "Internal Server Error", users)
    | some u =>
      (.ok 200 (toJSONUser (applyProfileUpdate body u)),
        users.map (fun v => if v.uid == caller.uid then applyProfileUpdate body v else v))

/-! ## Email service (the nodemailer wrapper among the sources) -/

/-- What the configured transport would do if invoked: deliver, or fail
(a rejected `sendMail` promise). -/
inductive SendOutcome where
  | delivered
  | transportError
deriving DecidableEq

/-- `sendEmail`: with no transporter configured the call is skipped and
resolves `false` (success-no-op); with one configured, a transport failure
is caught and also resolves `false`; only a delivery resolves `true`. The
function never rejects. -/
def sendEmail (transporterConfigured : Bool) (outcome : SendOutcome) : Bool :=
  if !transporterConfigured then false
  else
    match outcome with
    | .delivered => true
    | .transportError => false

/-- `register` with its fire-and-forget `sendWelcomeEmail(...).catch(...)`:
the handler's response and store are computed without awaiting the send;
the send's boolean outcome is carried separately. -/
def registerWithNotifier (users : List UserRec) (body : RegisterBody) (hash : String)
    (newId : Nat) (token : String) (transporterConfigured : Bool) (outcome : SendOutcome) :
    (HandlerResult AuthData × List UserRec) × Bool :=
  (register users body hash newId token, sendEmail transporterConfigured outcome)

/-- `createResource` with its fire-and-forget
`sendQuizCreatedEmail(...).catch(...)`. -/
def createResourceWithNotifier (store : List Quiz) (user : UserRec) (body : CreateBody)
    (newId now : Nat) (transporterConfigured : Bool) (outcome : SendOutcome) :
    (HandlerResult Quiz × List Quiz) × Bool :=
  (createResource store user body newId now, sendEmail transporterConfigured outcome)

/-- The invariant of claim C3 on the stored collection: every stored
question's correct index is strictly below its option count. -/
def storeInv (store : List Quiz) : Prop :=
  ∀ quiz ∈ store, ∀ q ∈ quiz.questions, q.correctIndex < q.options.length

/-! ## Concrete sample data (used by the closed corollaries below) -/

/-- The sample question of end-to-end scenario B. -/
def sampleQuestion : Question := ⟨"Capital of France?", ["Paris", "Lyon"], 0⟩

/-- A private quiz owned by identity 10. -/
def sampleQuiz : Quiz :=
  { qid := 1, title := "Geo Quiz", description := "", owner := 10, isPublic := false
    questions := [sampleQuestion], createdAt := 5, updatedAt := 5 }

/-- The owner of `sampleQuiz`. -/
def alice : UserRec := ⟨10, "alice123", "alice@x.com", "hashA", "user"⟩

/-- A second, non-admin identity that owns nothing. -/
def bob : UserRec := ⟨20, "bob", "bob@x.com", "hashB", "user"⟩

/-- An update body supplying no field (and no stray `owner` key). -/
def emptyUpdate : UpdateBody := ⟨none, none, none, none, none⟩

/-! ## Shared lemmas -/

/-- A question that passes Joi validation satisfies the cross-field
invariant `correctIndex < options.length`. -/
theorem questionCheck_correctIndex (q : Question) (h : questionCheck q = true) :
    q.correctIndex < q.options.length := by
  unfold questionCheck at h
  simp only [Bool.and_eq_true, decide_eq_true_eq] at h
  exact h.2

/-- A create body that passes Joi validation has only validated questions. -/
theorem createCheck_all (b : CreateBody) (h : createCheck b = true) :
    ∀ q ∈ b.questions, questionCheck q = true := by
  unfold createCheck at h
  simp only [Bool.and_eq_true] at h
  exact fun q hq => List.all_eq_true.mp h.1.1.2 q hq

/-- An update body that passes Joi validation and supplies a question list
has only validated questions in it. -/
theorem updateCheck_all (b : UpdateBody) (qs : List Question)
    (hq : b.questions = some qs) (h : updateCheck b = true) :
    ∀ q ∈ qs, questionCheck q = true := by
  unfold updateCheck at h
  rw [hq] at h
  simp only [Bool.and_eq_true] at h
  exact fun q hqm => List.all_eq_true.mp h.2.1.1 q hqm

/-- `findById` only returns stored documents. -/
theorem findQuiz_mem (store : List Quiz) (id : Nat) (quiz : Quiz)
    (h : findQuiz store id = some quiz) : quiz ∈ store :=
  List.mem_of_find?_eq_some h

/-! ## C1 -/

/-- C1: on an existing quiz, `PUT /resource/:id` and `DELETE /resource/:id`
by an authenticated caller who is neither the owner nor an admin answer 403
and leave the store untouched; an owner or admin caller proceeds (the
update succeeds with the merged quiz, the delete succeeds with `data:
null`). -/
theorem update_delete_owner_or_admin_gate
    (store : List Quiz) (user : UserRec) (id : Nat) (body : UpdateBody) (now : Nat)
    (quiz : Quiz) (hfind : findQuiz store id = some quiz) :
    ((quiz.owner ≠ user.uid ∧ user.role ≠ "admin") →
      updateResource store user id body now
          = (.err 403 "Access denied. You do not own this resource.", store) ∧
      deleteResource store user id
          = (.err 403 "Access denied. You do not own this resource.", store)) ∧
    ((quiz.owner = user.uid ∨ user.role = "admin") →
      (updateResource store user id body now).1 = .ok 200 (applyUpdate quiz body now) ∧
      (deleteResource store user id).1 = .ok 200 ()) := by
  constructor
  · rintro ⟨ho, hr⟩
    have h1 : (quiz.owner == user.uid) = false := by simp [ho]
    have h2 : (user.role == "admin") = false := by simp [hr]
    constructor
    · simp [updateResource, hfind, h1, h2]
    · simp [deleteResource, hfind, h1, h2]
  · intro h
    have hc : (!(quiz.owner == user.uid) && !(user.role == "admin")) = false := by
      rcases h with h | h <;> simp [h]
    constructor
    · simp [updateResource, hfind, hc]
    · simp [deleteResource, hfind, hc]

/-- Closed corollary of C1: bob can neither update nor delete alice's
quiz — both answer 403 and the store is unchanged. -/
theorem update_delete_owner_or_admin_gate_witness :
    updateResource [sampleQuiz] bob 1 emptyUpdate 9
        = (.err 403 "Access denied. You do not own this resource.", [sampleQuiz]) ∧
    deleteResource [sampleQuiz] bob 1
        = (.err 403 "Access denied. You do not own this resource.", [sampleQuiz]) :=
  (update_delete_owner_or_admin_gate [sampleQuiz] bob 1 emptyUpdate 9 sampleQuiz
      (by decide)).1 (by decide)

/-! ## C2 -/

/-- C2: when no quiz has the requested id, every by-id operation (get,
update, delete, play) answers 404 for every caller — in particular the
result does not depend on the caller at all, so the not-found answer
pre-empts any ownership/role/visibility failure. -/
theorem notfound_precedence
    (store : List Quiz) (id : Nat) (hnone : findQuiz store id = none) :
    ∀ (user : UserRec) (optUser : Option UserRec) (body : UpdateBody) (now : Nat),
      getResourceById store user id = .err 404 "Quiz not found" ∧
      updateResource store user id body now = (.err 404 "Quiz not found", store) ∧
      deleteResource store user id = (.err 404 "Quiz not found", store) ∧
      getResourceForPlay store optUser id = .err 404 "Quiz not found" := by
  intro user optUser body now
  refine ⟨?_, ?_, ?_, ?_⟩ <;>
    simp [getResourceById, updateResource, deleteResource, getResourceForPlay, hnone]

/-- Closed corollary of C2: on an empty store even a non-owner gets 404,
not 403, from all four by-id operations. -/
theorem notfound_precedence_witness :
    getResourceById [] bob 1 = .err 404 "Quiz not found" ∧
    updateResource [] bob 1 emptyUpdate 9 = (.err 404 "Quiz not found", []) ∧
    deleteResource [] bob 1 = (.err 404 "Quiz not found", []) ∧
    getResourceForPlay [] (some bob) 1 = .err 404 "Quiz not found" :=
  notfound_precedence [] 1 rfl bob (some bob) emptyUpdate 9

/-! ## C3 -/

/-- C3: a create or update payload containing a question whose
`correctIndex` is not strictly below its option count fails Joi validation,
so the route answers 400 "Validation failed" and the store is untouched;
consequently both routes preserve the stored invariant
`correctIndex < options.length` for every payload whatsoever. -/
theorem correctIndex_validation_guard
    (store : List Quiz) (user : UserRec) (cb : CreateBody) (ub : UpdateBody)
    (id newId now : Nat) (q q' : Question) (qs : List Question)
    (hcq : q ∈ cb.questions) (hcbad : q.options.length ≤ q.correctIndex)
    (huq : ub.questions = some qs) (hq' : q' ∈ qs)
    (hubad : q'.options.length ≤ q'.correctIndex)
    (hinv : storeInv store) :
    postResourceRoute store user cb newId now = (.err 400 "Validation failed", store) ∧
    putResourceRoute store user id ub now = (.err 400 "Validation failed", store) ∧
    (∀ cb2, storeInv (postResourceRoute store user cb2 newId now).2) ∧
    (∀ ub2, storeInv (putResourceRoute store user id ub2 now).2) := by
  have hccf : createCheck cb = false := by
    cases hb : createCheck cb with
    | false => rfl
    | true =>
      exact absurd (questionCheck_correctIndex q (createCheck_all cb hb q hcq))
        (Nat.not_lt.mpr hcbad)
  have hucf : updateCheck ub = false := by
    cases hb : updateCheck ub with
    | false => rfl
    | true =>
      exact absurd (questionCheck_correctIndex q' (updateCheck_all ub qs huq hb q' hq'))
        (Nat.not_lt.mpr hubad)
  refine ⟨by simp [postResourceRoute, hccf], by simp [putResourceRoute, hucf], ?_, ?_⟩
  · intro cb2
    cases hb : createCheck cb2 with
    | false => simpa [postResourceRoute, hb] using hinv
    | true =>
      have h2 : (postResourceRoute store user cb2 newId now).2
          = store ++ [createdQuiz user cb2 newId now] := by
        simp [postResourceRoute, hb, createResource]
      rw [h2]
      intro quiz hmem qq hqq
      rcases List.mem_append.mp hmem with hmem | hmem
      · exact hinv quiz hmem qq hqq
      · have heq : quiz = createdQuiz user cb2 newId now := by simpa using hmem
        subst heq
        have hqq2 : qq ∈ cb2.questions := by simpa [createdQuiz] using hqq
        exact questionCheck_correctIndex qq (createCheck_all cb2 hb qq hqq2)
  · intro ub2
    cases hb : updateCheck ub2 with
    | false => simpa [putResourceRoute, hb] using hinv
    | true =>
      cases hf : findQuiz store id with
      | none => simpa [putResourceRoute, hb, updateResource, hf] using hinv
      | some quiz0 =>
        cases hcb : (!(quiz0.owner == user.uid) && !(user.role == "admin")) with
        | true => simpa [putResourceRoute, hb, updateResource, hf, hcb] using hinv
        | false =>
          have h2 : (putResourceRoute store user id ub2 now).2
              = store.map (fun q => if q.qid == id then applyUpdate quiz0 ub2 now else q) := by
            simp [putResourceRoute, hb, updateResource, hf, hcb]
          rw [h2]
          intro quiz hmem qq hqq
          rcases List.mem_map.mp hmem with ⟨orig, horig, heq⟩
          by_cases ho : (orig.qid == id) = true
          · rw [if_pos ho] at heq
            subst heq
            cases hq2 : ub2.questions with
            | none =>
              have hmem0 : qq ∈ quiz0.questions := by simpa [applyUpdate, hq2] using hqq
              exact hinv quiz0 (findQuiz_mem store id quiz0 hf) qq hmem0
            | some qs2 =>
              have hmem2 : qq ∈ qs2 := by simpa [applyUpdate, hq2] using hqq
              exact questionCheck_correctIndex qq (updateCheck_all ub2 qs2 hq2 hb qq hmem2)
          · rw [if_neg ho] at heq
            subst heq
            exact hinv orig horig qq hqq

/-- A question whose correct index equals its option count (2 options,
index 2). -/
def badQuestion : Question := ⟨"Pick one", ["a", "b"], 2⟩

/-- A create payload carrying `badQuestion`. -/
def badCreate : CreateBody := ⟨"Bad quiz", none, none, [badQuestion]⟩

/-- An update payload carrying `badQuestion`. -/
def badUpdate : UpdateBody := ⟨none, none, none, some [badQuestion], none⟩

/-- Closed corollary of C3: the bad payloads are rejected with 400 and the
(empty) store is not written. -/
theorem correctIndex_validation_guard_witness :
    postResourceRoute [] alice badCreate 2 9 = (.err 400 "Validation failed", []) ∧
    putResourceRoute [] alice 1 badUpdate 9 = (.err 400 "Validation failed", []) := by
  have h := correctIndex_validation_guard [] alice badCreate badUpdate 1 2 9 badQuestion
    badQuestion [badQuestion] (by decide) (by decide) rfl (by decide) (by decide)
    (by intro quiz hmem; exact absurd hmem (List.not_mem_nil quiz))
  exact ⟨h.1, h.2.1⟩

/-! ## C4 -/

/-- C4: on an existing quiz, play answers 403 exactly when the quiz is
private and the caller is neither the owner nor an admin (anonymous
callers count as neither); otherwise it answers 200 with the play
projection, which carries every question's text, options and
correctIndex. -/
theorem play_visibility_gate
    (store : List Quiz) (id : Nat) (optUser : Option UserRec) (quiz : Quiz)
    (hfind : findQuiz store id = some quiz) :
    (quiz.isPublic = false → optIsOwner optUser quiz = false → optIsAdmin optUser = false →
      getResourceForPlay store optUser id = .err 403 "This quiz is not available for playing") ∧
    ((quiz.isPublic = true ∨ optIsOwner optUser quiz = true ∨ optIsAdmin optUser = true) →
      getResourceForPlay store optUser id = .ok 200 (playProjection quiz)) ∧
    optIsOwner none quiz = false ∧
    optIsAdmin none = false ∧
    (playProjection quiz).questions
        = quiz.questions.map (fun q => ⟨q.text, q.options, q.correctIndex⟩) := by
  refine ⟨?_, ?_, rfl, rfl, rfl⟩
  · intro hp ho ha
    simp [getResourceForPlay, hfind, hp, ho, ha]
  · intro h
    have hc : (!quiz.isPublic && !(optIsOwner optUser quiz) && !(optIsAdmin optUser)) = false := by
      rcases h with h | h | h <;> simp [h]
    simp [getResourceForPlay, hfind, hc]

/-- A public quiz owned by identity 10. -/
def publicQuiz : Quiz :=
  { qid := 2, title := "Open Geo", description := "", owner := 10, isPublic := true
    questions := [sampleQuestion], createdAt := 6, updatedAt := 6 }

/-- Closed corollary of C4: an anonymous play of the public quiz succeeds
with the full projection; an anonymous play of the private quiz is 403. -/
theorem play_visibility_gate_witness :
    getResourceForPlay [publicQuiz] none 2 = .ok 200 (playProjection publicQuiz) ∧
    getResourceForPlay [sampleQuiz] none 1
        = .err 403 "This quiz is not available for playing" := by
  constructor
  · exact (play_visibility_gate [publicQuiz] 2 none publicQuiz (by decide)).2.1
      (Or.inl (by decide))
  · exact (play_visibility_gate [sampleQuiz] 1 none sampleQuiz (by decide)).1
      (by decide) rfl rfl

/-! ## C5 -/

/-- C5: the authenticated list returns 200 with the scoped query result:
for a non-admin every returned quiz is the caller's own (hence own-or-
public); for an admin the result contains exactly the whole store; the
result is ordered newest first by creation timestamp. -/
theorem list_scope_and_order (store : List Quiz) (user : UserRec) :
    getAllResources store user
        = .ok 200 (List.insertionSort newerEq (ownScope store user)) ∧
    (user.role ≠ "admin" →
      ∀ q ∈ List.insertionSort newerEq (ownScope store user),
        q.owner = user.uid ∨ q.isPublic = true) ∧
    (user.role = "admin" →
      ∀ q, q ∈ List.insertionSort newerEq (ownScope store user) ↔ q ∈ store) ∧
    (List.insertionSort newerEq (ownScope store user)).Pairwise
        (fun a b => b.createdAt ≤ a.createdAt) := by
  refine ⟨rfl, ?_, ?_, ?_⟩
  · intro hr q hq
    have hq2 : q ∈ ownScope store user := (List.perm_insertionSort _ _).mem_iff.mp hq
    have hr2 : (user.role == "admin") = false := by simp [hr]
    rw [ownScope, hr2] at hq2
    simp only [Bool.false_eq_true, if_false, List.mem_filter, beq_iff_eq] at hq2
    exact Or.inl hq2.2
  · intro hr q
    rw [(List.perm_insertionSort _ _).mem_iff]
    simp [ownScope, hr]
  · exact (List.sorted_insertionSort newerEq (ownScope store user)).imp (fun h => h)

/-- Closed corollary of C5: listing as the non-admin alice only ever
surfaces quizzes she owns or that are public. -/
theorem list_scope_and_order_witness :
    sampleQuiz.owner = alice.uid ∨ sampleQuiz.isPublic = true :=
  (list_scope_and_order [sampleQuiz, publicQuiz] alice).2.1 (by decide) sampleQuiz (by decide)

/-! ## C6 -/

/-- C6: an authorized update writes exactly the supplied fields: every
unsupplied field among title/description/isPublic/questions keeps its
prior value, `owner` and `createdAt` are untouched (the body's stray
`owner` key is never read), `updatedAt` is set to the mutation instant,
and a create also stamps both timestamps with the mutation instant. -/
theorem update_partial_merge
    (store : List Quiz) (user : UserRec) (id now : Nat) (body : UpdateBody)
    (quiz : Quiz) (hfind : findQuiz store id = some quiz)
    (hauth : quiz.owner = user.uid ∨ user.role = "admin") :
    updateResource store user id body now
        = (.ok 200 (applyUpdate quiz body now),
           store.map (fun q => if q.qid == id then applyUpdate quiz body now else q)) ∧
    (body.title = none → (applyUpdate quiz body now).title = quiz.title) ∧
    (∀ t, body.title = some t → (applyUpdate quiz body now).title = t) ∧
    (body.description = none → (applyUpdate quiz body now).description = quiz.description) ∧
    (∀ d, body.description = some d → (applyUpdate quiz body now).description = d) ∧
    (body.isPublic = none → (applyUpdate quiz body now).isPublic = quiz.isPublic) ∧
    (∀ p, body.isPublic = some p → (applyUpdate quiz body now).isPublic = p) ∧
    (body.questions = none → (applyUpdate quiz body now).questions = quiz.questions) ∧
    (∀ qs, body.questions = some qs → (applyUpdate quiz body now).questions = qs) ∧
    (applyUpdate quiz body now).owner = quiz.owner ∧
    (applyUpdate quiz body now).createdAt = quiz.createdAt ∧
    (applyUpdate quiz body now).updatedAt = now ∧
    (∀ o, applyUpdate quiz { body with owner := o } now = applyUpdate quiz body now) ∧
    (∀ (cb : CreateBody) (newId : Nat),
      (createdQuiz user cb newId now).updatedAt = now ∧
      (createdQuiz user cb newId now).createdAt = now) := by
  have hc : (!(quiz.owner == user.uid) && !(user.role == "admin")) = false := by
    rcases hauth with h | h <;> simp [h]
  refine ⟨by simp [updateResource, hfind, hc], ?_, ?_, ?_, ?_, ?_, ?_, ?_, ?_,
    rfl, rfl, rfl, fun o => rfl, fun cb newId => ⟨rfl, rfl⟩⟩
  all_goals intro h1
  any_goals intro h2
  all_goals simp_all [applyUpdate]

/-- Closed corollary of C6: bob's update body naming a new owner does not
move ownership, `createdAt` survives, and `updatedAt` is refreshed. -/
theorem update_partial_merge_witness :
    (applyUpdate sampleQuiz emptyUpdate 9).owner = sampleQuiz.owner ∧
    (applyUpdate sampleQuiz emptyUpdate 9).createdAt = sampleQuiz.createdAt ∧
    (applyUpdate sampleQuiz emptyUpdate 9).updatedAt = 9 ∧
    applyUpdate sampleQuiz { emptyUpdate with owner := some 20 } 9
        = applyUpdate sampleQuiz emptyUpdate 9 := by
  have h := update_partial_merge [sampleQuiz] alice 1 9 emptyUpdate sampleQuiz
    (by decide) (Or.inl (by decide))
  exact ⟨h.2.2.2.2.2.2.2.2.2.1, h.2.2.2.2.2.2.2.2.2.2.1, h.2.2.2.2.2.2.2.2.2.2.2.1,
    h.2.2.2.2.2.2.2.2.2.2.2.2.1 (some 20)⟩

/-! ## C7 -/

/-- C7: the unauthenticated public list always answers 200; its items are
exactly the summaries of the publicly visible quizzes, ordered newest
first; each summary carries the question count and (by shape) no question
text, options or correct indices. -/
theorem public_list_contents (store : List Quiz) :
    getPublicResources store
        = .ok 200 ((List.insertionSort newerEq
            (store.filter (fun q => q.isPublic))).map publicSummary) ∧
    (∀ p, p ∈ (List.insertionSort newerEq
          (store.filter (fun q => q.isPublic))).map publicSummary ↔
        ∃ quiz, quiz ∈ store ∧ quiz.isPublic = true ∧ p = publicSummary quiz) ∧
    (∀ quiz, (publicSummary quiz).questionCount = quiz.questions.length) ∧
    ((List.insertionSort newerEq (store.filter (fun q => q.isPublic))).map
        publicSummary).Pairwise (fun a b => b.createdAt ≤ a.createdAt) := by
  refine ⟨rfl, ?_, fun quiz => rfl, ?_⟩
  · intro p
    simp only [List.mem_map, (List.perm_insertionSort newerEq _).mem_iff, List.mem_filter]
    constructor
    · rintro ⟨q, ⟨hs, hp⟩, rfl⟩
      exact ⟨q, hs, hp, rfl⟩
    · rintro ⟨q, hs, hp, rfl⟩
      exact ⟨q, ⟨hs, hp⟩, rfl⟩
  · exact (List.sorted_insertionSort newerEq _).map _ (fun a b h => h)

/-- Closed corollary of C7: with one private and one public quiz stored,
the public list is 200 and carries exactly the public quiz's summary,
whose question count is 1. -/
theorem public_list_contents_witness :
    (publicSummary publicQuiz ∈ (List.insertionSort newerEq
        ([sampleQuiz, publicQuiz].filter (fun q => q.isPublic))).map publicSummary) ∧
    (publicSummary publicQuiz).questionCount = 1 := by
  have h := public_list_contents [sampleQuiz, publicQuiz]
  exact ⟨(h.2.1 (publicSummary publicQuiz)).mpr ⟨publicQuiz, by decide, by decide, rfl⟩,
    h.2.2.1 publicQuiz⟩

/-! ## C8 -/

/-- C8: the response and store effect of registration and of quiz creation
do not depend on the notifier's configuration or outcome — the send is
detached from the response path and `sendEmail` never raises; with no
transport configured the send is skipped and resolves `false`
(success-no-op). -/
theorem notifier_independence
    (users : List UserRec) (rbody : RegisterBody) (hash : String) (newId : Nat)
    (token : String) (store : List Quiz) (user : UserRec) (cbody : CreateBody)
    (qid now : Nat) (cfg cfg2 : Bool) (o o2 : SendOutcome) :
    (registerWithNotifier users rbody hash newId token cfg o).1
        = (registerWithNotifier users rbody hash newId token cfg2 o2).1 ∧
    (createResourceWithNotifier store user cbody qid now cfg o).1
        = (createResourceWithNotifier store user cbody qid now cfg2 o2).1 ∧
    sendEmail false o = false :=
  ⟨rfl, rfl, rfl⟩

/-! ## C9 -/

/-- C9: the identity serialised into the 201 registration response (and
into login and profile responses) carries no password-hash field: the
registration response is unchanged by swapping the stored hash, the
`toJSON` projection is insensitive to the hash, and every login/profile
success body is such a projection of a stored record. -/
theorem response_identity_no_hash
    (users : List UserRec) (body : RegisterBody) (h1 h2 : String) (newId : Nat)
    (tok : String) (u : UserRec) (em pw : String) (cmp : String → String → Bool)
    (callerId : Nat) :
    (register users body h1 newId tok).1 = (register users body h2 newId tok).1 ∧
    (∀ h, toJSONUser { u with passwordHash := h } = toJSONUser u) ∧
    (∀ d, login users em pw cmp tok = .ok 200 d → ∃ v, v ∈ users ∧ d.user = toJSONUser v) ∧
    (∀ p, getProfile users callerId = .ok 200 p → ∃ v, v ∈ users ∧ p = toJSONUser v) := by
  refine ⟨?_, fun h => rfl, ?_, ?_⟩
  · cases hfind : users.find? (fun v => v.email == body.email || v.username == body.username) <;>
      simp [register, hfind, toJSONUser, newUserRec]
  · intro d hd
    unfold login at hd
    split at hd
    · exact absurd hd (by simp)
    · rename_i v hv
      split at hd
      · refine ⟨v, List.mem_of_find?_eq_some hv, ?_⟩
        cases hd
        rfl
      · exact absurd hd (by simp)
  · intro p hp
    unfold getProfile findUser at hp
    split at hp
    · exact absurd hp (by simp)
    · rename_i v hv
      refine ⟨v, List.mem_of_find?_eq_some hv, ?_⟩
      cases hp
      rfl

/-- A registration payload (with a stray `role` key a caller might add). -/
def regBody : RegisterBody := ⟨"carol_7", "carol@x.com", "Passw0rd", none⟩

/-- Closed corollary of C9: the registration response is identical no
matter which bcrypt hash the store receives. -/
theorem response_identity_no_hash_witness :
    (register [alice] regBody "HASH-ONE" 3 "tok").1
        = (register [alice] regBody "HASH-TWO" 3 "tok").1 :=
  (response_identity_no_hash [alice] regBody "HASH-ONE" "HASH-TWO" 3 "tok" alice
    "" "" (fun _ _ => false) 0).1

/-! ## C10 -/

/-- C10: no exposed operation mints an admin: registration hard-codes role
`user` whatever the payload said (the stripped `role` key is never read),
so every post-registration record either pre-existed or has role `user`;
and profile update writes only username/email, leaving every stored role
exactly as it was. -/
theorem role_never_escalates
    (users : List UserRec) (body : RegisterBody) (hash : String) (newId : Nat)
    (tok : String) (caller : UserRec) (pbody : ProfileBody) :
    (∀ r, register users { body with role := r } hash newId tok
        = register users { body with role := none } hash newId tok) ∧
    (∀ u, u ∈ (register users body hash newId tok).2 → u ∈ users ∨ u.role = "user") ∧
    ((updateProfile users caller pbody).2.map UserRec.role = users.map UserRec.role) := by
  refine ⟨fun r => rfl, ?_, ?_⟩
  · intro u hu
    unfold register at hu
    split at hu
    · rename_i existing hfind
      split at hu
      · exact Or.inl hu
      · exact Or.inl hu
    · rcases List.mem_append.mp hu with hm | hm
      · exact Or.inl hm
      · have heq : u = newUserRec body hash newId := by simpa using hm
        exact Or.inr (by rw [heq]; rfl)
  · unfold updateProfile
    split
    · split
      · rfl
      · split
        · rfl
        · rfl
    · split
      · rfl
      · simp only [List.map_map]
        refine List.map_congr_left ?_
        intro v hv
        by_cases hvc : v.uid = caller.uid <;> simp [hvc, applyProfileUpdate]

/-- Closed corollary of C10: updating alice's profile (new username and a
new email) leaves the stored role list exactly as before. -/
theorem role_never_escalates_witness :
    (updateProfile [alice, bob] alice ⟨some "alice_new", some "alice2@x.com"⟩).2.map
        UserRec.role = [alice, bob].map UserRec.role :=
  (role_never_escalates [alice, bob] regBody "H" 3 "tok" alice
    ⟨some "alice_new", some "alice2@x.com"⟩).2.2
